import Mathlib

/-!
Verification of the store-manager-api backend (src/api/views.py).

The handlers of src/api/views.py are embedded shallowly: each Flask view
method becomes a Lean function from the database state and the request
data to a response together with the successor state.  The persistence
layer (db.py), the data models (api/models.py) and the payload validators
(api/utils/validators.py) are imported by views.py but are not part of the
sources; they are modelled from the specification, as marked on each such
definition.
-/

namespace StoreApi

/-- A registered user row.  Modelled from the spec: api/models.py is not in
the sources; the spec data model lists id, first_name, last_name, email,
password hash and the is_admin flag. -/
structure User where
  id : Nat
  first_name : String
  last_name : String
  email : String
  password : String
  is_admin : Bool
deriving DecidableEq

/-- A product row.  Modelled from the spec: id, name, unit_cost, quantity,
optional category_id.  Numeric fields are integers; the sale handler in
views.py performs plain subtraction and multiplication on them. -/
structure Product where
  id : Nat
  name : String
  unit_cost : Int
  quantity : Int
  category_id : Option Nat
deriving DecidableEq

/-- A category row.  Modelled from the spec: id, name, description; the
description may be absent (PUT on a category passes data.get directly). -/
structure Category where
  id : Nat
  name : String
  description : Option String
deriving DecidableEq

/-- A sale row.  Modelled from the spec: id, attendant_id, product_id,
quantity and the total computed at sale time. -/
structure Sale where
  id : Nat
  attendant_id : Nat
  product_id : Nat
  quantity : Int
  total : Int
deriving DecidableEq

/-- The database state.  Modelled from the spec: db.py is not in the
sources; the spec treats persistence as a key-by-id store over the four
tables.  Fresh ids are drawn from per-table counters. -/
structure DBState where
  users : List User
  products : List Product
  categories : List Category
  sales : List Sale
  nextUserId : Nat
  nextProductId : Nat
  nextCategoryId : Nat
  nextSaleId : Nat
deriving DecidableEq

/-- An HTTP response: status code plus the JSON fields the handlers emit.
jsonify without an explicit code answers 200. -/
structure Response where
  status : Nat
  message : Option String
  error : Option String
  token : Option String
  product : Option Product
  category : Option Category
  sale_record : Option Sale
deriving DecidableEq

/-- Response carrying only an error message. -/
def errResp (status : Nat) (e : String) : Response :=
  ⟨status, none, some e, none, none, none, none⟩

/-- Response carrying only a message. -/
def msgResp (status : Nat) (m : String) : Response :=
  ⟨status, some m, none, none, none, none, none⟩

/-- Login success response: message plus bearer token, status 200. -/
def tokenResp (m tok : String) : Response :=
  ⟨200, some m, none, some tok, none, none, none⟩

/-- Modelled from the spec: the credential helper (werkzeug) is an external
collaborator; hashing is an injective encoding of the password. -/
def generate_password_hash (password : String) : String :=
  String.append "pbkdf2$" password

/-- Modelled from the spec: password verification succeeds exactly when the
stored hash is the hash of the submitted password. -/
def check_password_hash (hash password : String) : Bool :=
  hash == generate_password_hash password

/-- Modelled from the spec: the token issuer binds an opaque bearer token
to the identity string (the email). -/
def create_access_token (identity : String) : String :=
  String.append "jwt$" identity

/-- Modelled from the spec: the identity a token is bound to. -/
def access_token_identity (token : String) : String :=
  ⟨token.data.drop 4⟩

/-- db_conn.get_user: look a user up by email.  Modelled from the spec. -/
def get_user (s : DBState) (email : String) : Option User :=
  s.users.find? (fun u => u.email == email)

/-- db_conn.create_user: insert a user with a fresh id.  Modelled from the
spec; attendants registered through the API are non-admin. -/
def create_user (s : DBState) (first_name last_name email password : String)
    (is_admin : Bool) : DBState :=
  { s with
    users := s.users ++ [⟨s.nextUserId, first_name, last_name, email, password, is_admin⟩],
    nextUserId := s.nextUserId + 1 }

/-- db_conn.get_product_by_name.  Modelled from the spec. -/
def get_product_by_name (s : DBState) (name : String) : Option Product :=
  s.products.find? (fun p => p.name == name)

/-- db_conn.get_product_by_id.  Modelled from the spec. -/
def get_product_by_id (s : DBState) (product_id : Nat) : Option Product :=
  s.products.find? (fun p => p.id == product_id)

/-- db_conn.add_product: insert a product with a fresh id.  Modelled from
the spec. -/
def add_product (s : DBState) (name : String) (unit_cost quantity : Int)
    (category_id : Option Nat) : DBState :=
  { s with
    products := s.products ++ [⟨s.nextProductId, name, unit_cost, quantity, category_id⟩],
    nextProductId := s.nextProductId + 1 }

/-- db_conn.update_product: overwrite the named fields of the product with
the given id.  Modelled from the spec; a category_id argument of none means
the caller did not pass one (the sale handler omits it) and the stored
value is kept. -/
def update_product (s : DBState) (product_id : Nat) (name : String)
    (unit_cost quantity : Int) (category_id : Option (Option Nat)) : DBState :=
  { s with
    products := s.products.map (fun p =>
      if p.id == product_id then
        ⟨p.id, name, unit_cost, quantity, category_id.getD p.category_id⟩
      else p) }

/-- db_conn.delete_product.  Modelled from the spec. -/
def delete_product (s : DBState) (product_id : Nat) : DBState :=
  { s with products := s.products.filter (fun p => p.id != product_id) }

/-- db_conn.get_category_by_name.  Modelled from the spec. -/
def get_category_by_name (s : DBState) (name : String) : Option Category :=
  s.categories.find? (fun c => c.name == name)

/-- db_conn.get_category_by_id.  Modelled from the spec. -/
def get_category_by_id (s : DBState) (category_id : Nat) : Option Category :=
  s.categories.find? (fun c => c.id == category_id)

/-- db_conn.add_category: insert a category with a fresh id; no uniqueness
check of any kind.  Modelled from the spec. -/
def add_category (s : DBState) (name : String) (description : Option String) : DBState :=
  { s with
    categories := s.categories ++ [⟨s.nextCategoryId, name, description⟩],
    nextCategoryId := s.nextCategoryId + 1 }

/-- db_conn.update_category: overwrite name and description of the category
with the given id.  Modelled from the spec. -/
def update_category (s : DBState) (name : String) (description : Option String)
    (category_id : Nat) : DBState :=
  { s with
    categories := s.categories.map (fun c =>
      if c.id == category_id then ⟨c.id, name, description⟩ else c) }

/-- db_conn.delete_category.  Modelled from the spec. -/
def delete_category (s : DBState) (category_id : Nat) : DBState :=
  { s with categories := s.categories.filter (fun c => c.id != category_id) }

/-- db_conn.add_sale: insert a sale record with a fresh id.  Modelled from
the spec. -/
def add_sale (s : DBState) (attendant_id product_id : Nat) (quantity total : Int) : DBState :=
  { s with
    sales := s.sales ++ [⟨s.nextSaleId, attendant_id, product_id, quantity, total⟩],
    nextSaleId := s.nextSaleId + 1 }

/-- db_conn.get_single_sale.  Modelled from the spec. -/
def get_single_sale (s : DBState) (sale_id : Nat) : Option Sale :=
  s.sales.find? (fun x => x.id == sale_id)

/-- JSON payload of POST /auth/login; each field may be absent. -/
structure LoginPayload where
  email : Option String
  password : Option String
deriving DecidableEq

/-- JSON payload of POST /auth/signup. -/
structure RegisterPayload where
  first_name : Option String
  last_name : Option String
  email : Option String
  password : Option String
  confirm_password : Option String
deriving DecidableEq

/-- JSON payload of POST and PUT on products. -/
structure ProductPayload where
  name : Option String
  unit_cost : Option Int
  quantity : Option Int
  category_id : Option Nat
deriving DecidableEq

/-- JSON payload of POST /sales. -/
structure CartPayload where
  product_id : Option Nat
  quantity : Option Int
deriving DecidableEq

/-- JSON payload of POST and PUT on categories. -/
structure CategoryPayload where
  name : Option String
  description : Option String
deriving DecidableEq

/-- Modelled from the spec: validate_login_data (validators.py is not in
the sources) checks that both fields are present, answering 400 otherwise. -/
def validate_login_data (p : LoginPayload) : Option Response :=
  if p.email.isNone || p.password.isNone then
    some (errResp 400 "Email and password are required")
  else none

/-- Modelled from the spec: validate_register_data checks that all fields
are present and that password equals confirm_password, 400 otherwise. -/
def validate_register_data (p : RegisterPayload) : Option Response :=
  if p.first_name.isNone || p.last_name.isNone || p.email.isNone ||
      p.password.isNone || p.confirm_password.isNone then
    some (errResp 400 "All fields are required")
  else if p.password ≠ p.confirm_password then
    some (errResp 400 "Passwords do not match")
  else none

/-- Modelled from the spec: validate_product checks that name, unit_cost
and quantity are present (category_id is an optional reference), 400
otherwise. -/
def validate_product (p : ProductPayload) : Option Response :=
  if p.name.isNone || p.unit_cost.isNone || p.quantity.isNone then
    some (errResp 400 "Name, unit_cost and quantity are required")
  else none

/-- Modelled from the spec: validate_cart_item checks that product_id and
quantity are present, 400 otherwise. -/
def validate_cart_item (p : CartPayload) : Option Response :=
  if p.product_id.isNone || p.quantity.isNone then
    some (errResp 400 "Product id and quantity are required")
  else none

/-- Modelled from the spec: validate_category checks that name and
description are present, 400 otherwise. -/
def validate_category (p : CategoryPayload) : Option Response :=
  if p.name.isNone || p.description.isNone then
    some (errResp 400 "Name and description are required")
  else none

/-- LoginView.post of views.py.  No branch writes to the database, so the
state is threaded through unchanged. -/
def login_post (s : DBState) (p : LoginPayload) : Response × DBState :=
  match validate_login_data p with
  | some r => (r, s)
  | none =>
    let email := p.email.getD ""
    let password := p.password.getD ""
    match get_user s email with
    | none => (errResp 401 "Please register to login", s)
    | some user =>
      if user.is_admin && check_password_hash user.password password then
        (tokenResp "Store owner logged in successfully" (create_access_token email), s)
      else if !user.is_admin && check_password_hash user.password password then
        (tokenResp "Store attendant logged in successfully" (create_access_token email), s)
      else
        (errResp 401 "Invalid email or password", s)

/-- RegisterView.post of views.py: current_user is the identity the
verified bearer token is bound to.  A token identity with no user row makes
the Python handler raise (subscripting None), surfaced as a 500. -/
def register_post (s : DBState) (current_user : String) (p : RegisterPayload) :
    Response × DBState :=
  match get_user s current_user with
  | none => (errResp 500 "Internal server error", s)
  | some loggedin_user =>
    if !loggedin_user.is_admin then
      (errResp 403 "Please login as store owner to add store attendant", s)
    else
      match validate_register_data p with
      | some r => (r, s)
      | none =>
        let email := p.email.getD ""
        match get_user s email with
        | some _ => (errResp 400 "User with this email already exists", s)
        | none =>
          (msgResp 201 "Store attendant added successfully",
           create_user s (p.first_name.getD "") (p.last_name.getD "") email
             (generate_password_hash (p.password.getD "")) false)

/-- ProductView.post of views.py. -/
def product_post (s : DBState) (current_user : String) (p : ProductPayload) :
    Response × DBState :=
  match get_user s current_user with
  | none => (errResp 500 "Internal server error", s)
  | some loggedin_user =>
    if !loggedin_user.is_admin then
      (errResp 403 "Please login as a store owner", s)
    else
      match validate_product p with
      | some r => (r, s)
      | none =>
        let name := p.name.getD ""
        match get_product_by_name s name with
        | some _ => (errResp 400 "Product with this name already exists", s)
        | none =>
          let s' := add_product s name (p.unit_cost.getD 0) (p.quantity.getD 0) p.category_id
          (⟨201, some "Product created successfully", none, none,
            get_product_by_name s' name, none, none⟩, s')

/-- ProductView.put of views.py. -/
def product_put (s : DBState) (current_user : String) (product_id : Nat)
    (p : ProductPayload) : Response × DBState :=
  match get_user s current_user with
  | none => (errResp 500 "Internal server error", s)
  | some loggedin_user =>
    if !loggedin_user.is_admin then
      (errResp 403 "Please login as a store owner", s)
    else
      match validate_product p with
      | some r => (r, s)
      | none =>
        match get_product_by_id s product_id with
        | none => (errResp 404 "The product you are trying to modify does not exist", s)
        | some _ =>
          let s' := update_product s product_id (p.name.getD "") (p.unit_cost.getD 0)
            (p.quantity.getD 0) (some p.category_id)
          (⟨200, some "Product updated successfully", none, none,
            get_product_by_id s' product_id, none, none⟩, s')

/-- ProductView.delete of views.py. -/
def product_delete (s : DBState) (current_user : String) (product_id : Nat) :
    Response × DBState :=
  match get_user s current_user with
  | none => (errResp 500 "Internal server error", s)
  | some loggedin_user =>
    if !loggedin_user.is_admin then
      (errResp 403 "Please login as a store owner", s)
    else
      match get_product_by_id s product_id with
      | none => (errResp 404 "Product you are trying to delete does not exist", s)
      | some _ =>
        (msgResp 200 "Product has been deleted successfully", delete_product s product_id)

/-- SaleView.post of views.py.  When the product id has no row the Python
handler raises on product subscripting (no 404 branch in the source),
surfaced as a 500 with no write. -/
def sale_post (s : DBState) (current_user : String) (p : CartPayload) :
    Response × DBState :=
  match get_user s current_user with
  | none => (errResp 500 "Internal server error", s)
  | some loggedin_user =>
    if loggedin_user.is_admin then
      (errResp 403 "Please login as a store attendant", s)
    else
      match validate_cart_item p with
      | some r => (r, s)
      | none =>
        let product_id := p.product_id.getD 0
        match get_product_by_id s product_id with
        | none => (errResp 500 "Internal server error", s)
        | some product =>
          let quantity := p.quantity.getD 0
          let total := product.unit_cost * quantity
          let new_quantity := product.quantity - quantity
          let s1 := update_product s product_id product.name product.unit_cost
            new_quantity none
          let s2 := add_sale s1 loggedin_user.id product_id quantity total
          (msgResp 201 "Sale made successfully", s2)

/-- SaleView.get of views.py restricted to the single-record branch
(sale_id supplied); every path of that branch returns. -/
def sale_get_single (s : DBState) (current_user : String) (sale_id : Nat) : Response :=
  match get_user s current_user with
  | none => errResp 500 "Internal server error"
  | some user =>
    match get_single_sale s sale_id with
    | none => errResp 404 "Sale record with this id does not exist"
    | some sale_record =>
      if user.is_admin then
        ⟨200, some "Sale record returned successfully", none, none, none, none, some sale_record⟩
      else if sale_record.attendant_id == user.id then
        ⟨200, some "Sale record returned successfully", none, none, none, none, some sale_record⟩
      else
        errResp 403 "You did not make this sale"

/-- CategoryView.post of views.py.  The source reads the category by name
before inserting but never branches on the result: there is no duplicate
check.  The response body refetches by name, which under a duplicate yields
the earliest stored row with that name. -/
def category_post (s : DBState) (current_user : String) (p : CategoryPayload) :
    Response × DBState :=
  match get_user s current_user with
  | none => (errResp 500 "Internal server error", s)
  | some user =>
    if !user.is_admin then
      (errResp 403 "Please login as a store owner", s)
    else
      match validate_category p with
      | some r => (r, s)
      | none =>
        let name := p.name.getD ""
        let _category := get_category_by_name s name
        let s' := add_category s name p.description
        (⟨201, some "Successfully created product category", none, none, none,
          get_category_by_name s' name, none⟩, s')

/-- CategoryView.put of views.py.  The name check mirrors the Python
falsiness test: an absent or empty name answers 400. -/
def category_put (s : DBState) (current_user : String) (category_id : Nat)
    (p : CategoryPayload) : Response × DBState :=
  match get_user s current_user with
  | none => (errResp 500 "Internal server error", s)
  | some loggedin_user =>
    if !loggedin_user.is_admin then
      (errResp 403 "Please login as a store owner", s)
    else
      match get_category_by_id s category_id with
      | none => (errResp 404 "The category you are trying to modify does not exist", s)
      | some _ =>
        if p.name.getD "" == "" then
          (errResp 400 "The category name is required", s)
        else
          let s' := update_category s (p.name.getD "") p.description category_id
          (⟨200, some "Category updated successfully", none, none, none,
            get_category_by_id s' category_id, none⟩, s')

/-- CategoryView.delete of views.py: the admin branch deletes (404 when the
id is absent), every non-admin caller falls to the trailing 403. -/
def category_delete (s : DBState) (current_user : String) (category_id : Nat) :
    Response × DBState :=
  match get_user s current_user with
  | none => (errResp 500 "Internal server error", s)
  | some loggedin_user =>
    if loggedin_user.is_admin then
      match get_category_by_id s category_id with
      | none => (errResp 404 "Category you are trying to delete does not exist", s)
      | some _ =>
        (msgResp 200 "Category has been deleted successfully", delete_category s category_id)
    else
      (errResp 403 "Please login as a store owner", s)

/-! Concrete fixtures used by witnesses and counterexamples. -/

/-- A store owner on record. -/
def ownerUser : User :=
  ⟨1, "Olive", "Owner", "owner@store.com", generate_password_hash "ownerpw", true⟩

/-- A store attendant on record. -/
def attUser : User :=
  ⟨2, "Alan", "Attendant", "att@store.com", generate_password_hash "attpw", false⟩

/-- A second store attendant on record. -/
def attUser2 : User :=
  ⟨3, "Bella", "Attendant", "att2@store.com", generate_password_hash "attpw2", false⟩

/-- A product with ample stock. -/
def colaProduct : Product := ⟨1, "Cola", 2, 10, some 1⟩

/-- A product with stock 1, below typical sale quantities. -/
def chipsProduct : Product := ⟨2, "Chips", 3, 1, none⟩

/-- A category on record. -/
def bevCategory : Category := ⟨1, "Beverages", some "drinks"⟩

/-- A sale on record, made by attendant 2. -/
def sale1 : Sale := ⟨1, 2, 1, 3, 6⟩

/-- A database state holding the fixtures, counters past every stored id. -/
def baseState : DBState :=
  ⟨[ownerUser, attUser, attUser2], [colaProduct, chipsProduct], [bevCategory], [sale1],
   4, 3, 2, 2⟩

/-- The formalisation of the alleged inversion: some non-owner caller is not
rejected by the role check of category deletion, while some owner caller is
rejected with 403. -/
def category_delete_admin_inverted : Prop :=
  (∃ (s : DBState) (uid : String) (u : User) (cid : Nat),
     get_user s uid = some u ∧ u.is_admin = false ∧
     (category_delete s uid cid).1.status ≠ 403) ∧
  (∃ (s : DBState) (uid : String) (u : User) (cid : Nat),
     get_user s uid = some u ∧ u.is_admin = true ∧
     (category_delete s uid cid).1.status = 403)

/-! Helper lemmas. -/

theorem find?_cons_pos_bool {α : Type} (p : α → Bool) (a : α) (l : List α)
    (h : p a = true) : List.find? p (a :: l) = some a := by
  simp [List.find?_cons, h]

theorem find?_cons_neg_bool {α : Type} (p : α → Bool) (a : α) (l : List α)
    (h : p a = false) : List.find? p (a :: l) = List.find? p l := by
  simp [List.find?_cons, h]

theorem find?_map_update_products (l : List Product) (pid : Nat) (n : String)
    (c q : Int) (co : Option (Option Nat)) (prod : Product)
    (h : l.find? (fun p => p.id == pid) = some prod) :
    (l.map (fun p =>
        if p.id == pid then ⟨p.id, n, c, q, co.getD p.category_id⟩ else p)).find?
        (fun p => p.id == pid) =
      some ⟨prod.id, n, c, q, co.getD prod.category_id⟩ := by
  induction l with
  | nil => simp [List.find?] at h
  | cons a t ih =>
    rcases Bool.eq_false_or_eq_true (a.id == pid) with ha | ha
    · rw [find?_cons_pos_bool (fun p => p.id == pid) a t ha] at h
      cases h
      simp only [List.map_cons]
      rw [if_pos ha]
      exact find?_cons_pos_bool (fun p : Product => p.id == pid) _ _ ha
    · rw [find?_cons_neg_bool (fun p => p.id == pid) a t ha] at h
      simp only [List.map_cons]
      rw [if_neg (by simp [ha])]
      rw [find?_cons_neg_bool (fun p => p.id == pid) a _ ha]
      exact ih h

theorem find?_map_update_categories (l : List Category) (cid : Nat) (n : String)
    (d : Option String) (c : Category)
    (h : l.find? (fun x => x.id == cid) = some c) :
    (l.map (fun x => if x.id == cid then ⟨x.id, n, d⟩ else x)).find?
        (fun x => x.id == cid) = some ⟨c.id, n, d⟩ := by
  induction l with
  | nil => simp [List.find?] at h
  | cons a t ih =>
    rcases Bool.eq_false_or_eq_true (a.id == cid) with ha | ha
    · rw [find?_cons_pos_bool (fun x => x.id == cid) a t ha] at h
      cases h
      simp only [List.map_cons]
      rw [if_pos ha]
      exact find?_cons_pos_bool (fun x : Category => x.id == cid) _ _ ha
    · rw [find?_cons_neg_bool (fun x => x.id == cid) a t ha] at h
      simp only [List.map_cons]
      rw [if_neg (by simp [ha])]
      rw [find?_cons_neg_bool (fun x => x.id == cid) a _ ha]
      exact ih h

theorem find?_filter_out_categories (l : List Category) (cid : Nat) :
    (l.filter (fun x => x.id != cid)).find? (fun x => x.id == cid) = none := by
  induction l with
  | nil => simp [List.filter]
  | cons a t ih =>
    rcases Bool.eq_false_or_eq_true (a.id == cid) with ha | ha
    · simp only [List.filter_cons]
      rw [if_neg (by simp [bne, ha])]
      exact ih
    · simp only [List.filter_cons]
      rw [if_pos (by simp [bne, ha])]
      rw [find?_cons_neg_bool (fun x => x.id == cid) a _ ha]
      exact ih

theorem token_identity_of_email (e : String) :
    access_token_identity (create_access_token e) = e := by
  obtain ⟨l⟩ := e
  rfl

theorem product_post_duplicate_name (s : DBState) (uid : String) (u : User)
    (p : ProductPayload) (n : String) (c q : Int) (pr : Product)
    (hu : get_user s uid = some u) (hadmin : u.is_admin = true)
    (hn : p.name = some n) (hc : p.unit_cost = some c) (hq : p.quantity = some q)
    (hdup : get_product_by_name s n = some pr) :
    product_post s uid p = (errResp 400 "Product with this name already exists", s) := by
  unfold product_post
  rw [hu]
  simp [hadmin, validate_product, hn, hc, hq, hdup]

theorem category_delete_by_nonadmin (s : DBState) (uid : String) (u : User)
    (cid : Nat) (hu : get_user s uid = some u) (hadmin : u.is_admin = false) :
    category_delete s uid cid = (errResp 403 "Please login as a store owner", s) := by
  unfold category_delete
  rw [hu]
  simp [hadmin]

/-- C1: a sale-creation request by an authenticated attendant with a valid
payload whose product_id refers to an existing product stores the product
with its quantity decreased by exactly the sold quantity, appends a sale
record whose total is the unit_cost of the product at sale time multiplied
by the sold quantity, and answers 201. -/
theorem sale_post_decrements_stock_and_records_total
    (s : DBState) (uid : String) (u : User) (pid : Nat) (q : Int)
    (p : CartPayload) (prod : Product)
    (hu : get_user s uid = some u) (hadmin : u.is_admin = false)
    (hpid : p.product_id = some pid) (hq : p.quantity = some q)
    (hprod : get_product_by_id s pid = some prod) :
    (sale_post s uid p).1.status = 201 ∧
    get_product_by_id (sale_post s uid p).2 pid =
      some ⟨prod.id, prod.name, prod.unit_cost, prod.quantity - q, prod.category_id⟩ ∧
    (sale_post s uid p).2.sales =
      s.sales ++ [⟨s.nextSaleId, u.id, pid, q, prod.unit_cost * q⟩] := by
  have key : sale_post s uid p =
      (msgResp 201 "Sale made successfully",
       add_sale (update_product s pid prod.name prod.unit_cost (prod.quantity - q) none)
         u.id pid q (prod.unit_cost * q)) := by
    unfold sale_post
    rw [hu]
    simp [hadmin, validate_cart_item, hpid, hq, hprod]
  rw [key]
  refine ⟨rfl, ?_, rfl⟩
  exact find?_map_update_products s.products pid prod.name prod.unit_cost
    (prod.quantity - q) none prod hprod

/-- Witness for C1: attendant 2 sells 3 units of the Cola product (stock
10, unit cost 2) and the stored quantity becomes 7 with a sale of total 6. -/
theorem sale_post_decrements_stock_and_records_total_witness :
    get_user baseState "att@store.com" = some attUser ∧
    attUser.is_admin = false ∧
    get_product_by_id baseState 1 = some colaProduct ∧
    ((sale_post baseState "att@store.com" ⟨some 1, some 3⟩).1.status = 201 ∧
     get_product_by_id (sale_post baseState "att@store.com" ⟨some 1, some 3⟩).2 1 =
       some ⟨colaProduct.id, colaProduct.name, colaProduct.unit_cost,
         colaProduct.quantity - 3, colaProduct.category_id⟩ ∧
     (sale_post baseState "att@store.com" ⟨some 1, some 3⟩).2.sales =
       baseState.sales ++ [⟨baseState.nextSaleId, attUser.id, 1, 3, colaProduct.unit_cost * 3⟩]) :=
  ⟨by decide, by decide, by decide,
   sale_post_decrements_stock_and_records_total baseState "att@store.com" attUser 1 3
     ⟨some 1, some 3⟩ colaProduct (by decide) (by decide) rfl rfl (by decide)⟩

/-- C2: product creation by an owner with a valid payload whose name equals
the name of a stored product answers 400 and leaves the state exactly as it
was. -/
theorem product_post_duplicate_name_conflict_unchanged
    (s : DBState) (uid : String) (u : User) (p : ProductPayload)
    (n : String) (c q : Int) (pr : Product)
    (hu : get_user s uid = some u) (hadmin : u.is_admin = true)
    (hn : p.name = some n) (hc : p.unit_cost = some c) (hq : p.quantity = some q)
    (hdup : get_product_by_name s n = some pr) :
    (product_post s uid p).1.status = 400 ∧ (product_post s uid p).2 = s := by
  rw [product_post_duplicate_name s uid u p n c q pr hu hadmin hn hc hq hdup]
  exact ⟨rfl, rfl⟩

/-- Witness for C2: the owner resubmits the name Cola, which is stored, and
gets 400 with the state untouched. -/
theorem product_post_duplicate_name_conflict_unchanged_witness :
    get_user baseState "owner@store.com" = some ownerUser ∧
    ownerUser.is_admin = true ∧
    get_product_by_name baseState "Cola" = some colaProduct ∧
    ((product_post baseState "owner@store.com" ⟨some "Cola", some 5, some 7, none⟩).1.status = 400 ∧
     (product_post baseState "owner@store.com" ⟨some "Cola", some 5, some 7, none⟩).2 = baseState) :=
  ⟨by decide, by decide, by decide,
   product_post_duplicate_name_conflict_unchanged baseState "owner@store.com" ownerUser
     ⟨some "Cola", some 5, some 7, none⟩ "Cola" 5 7 colaProduct
     (by decide) (by decide) rfl rfl rfl (by decide)⟩

/-- C3: every owner-only operation (product create, update, delete,
category create, category update, attendant registration) called by an
authenticated non-admin answers 403 with the state unchanged, whatever the
payload, including invalid or missing fields. -/
theorem owner_only_endpoints_forbid_non_admin
    (s : DBState) (uid : String) (u : User)
    (hu : get_user s uid = some u) (hadmin : u.is_admin = false) :
    (∀ p : ProductPayload,
       product_post s uid p = (errResp 403 "Please login as a store owner", s)) ∧
    (∀ (pid : Nat) (p : ProductPayload),
       product_put s uid pid p = (errResp 403 "Please login as a store owner", s)) ∧
    (∀ pid : Nat,
       product_delete s uid pid = (errResp 403 "Please login as a store owner", s)) ∧
    (∀ p : CategoryPayload,
       category_post s uid p = (errResp 403 "Please login as a store owner", s)) ∧
    (∀ (cid : Nat) (p : CategoryPayload),
       category_put s uid cid p = (errResp 403 "Please login as a store owner", s)) ∧
    (∀ p : RegisterPayload,
       register_post s uid p =
         (errResp 403 "Please login as store owner to add store attendant", s)) := by
  refine ⟨fun p => ?_, fun pid p => ?_, fun pid => ?_, fun p => ?_, fun cid p => ?_,
    fun p => ?_⟩
  · unfold product_post
    rw [hu]
    simp [hadmin]
  · unfold product_put
    rw [hu]
    simp [hadmin]
  · unfold product_delete
    rw [hu]
    simp [hadmin]
  · unfold category_post
    rw [hu]
    simp [hadmin]
  · unfold category_put
    rw [hu]
    simp [hadmin]
  · unfold register_post
    rw [hu]
    simp [hadmin]

/-- Witness for C3: attendant 2 calls each owner-only operation with an
entirely empty payload and always gets 403 with the state unchanged. -/
theorem owner_only_endpoints_forbid_non_admin_witness :
    get_user baseState "att@store.com" = some attUser ∧
    attUser.is_admin = false ∧
    product_post baseState "att@store.com" ⟨none, none, none, none⟩ =
      (errResp 403 "Please login as a store owner", baseState) ∧
    product_put baseState "att@store.com" 1 ⟨none, none, none, none⟩ =
      (errResp 403 "Please login as a store owner", baseState) ∧
    product_delete baseState "att@store.com" 1 =
      (errResp 403 "Please login as a store owner", baseState) ∧
    category_post baseState "att@store.com" ⟨none, none⟩ =
      (errResp 403 "Please login as a store owner", baseState) ∧
    category_put baseState "att@store.com" 1 ⟨none, none⟩ =
      (errResp 403 "Please login as a store owner", baseState) ∧
    register_post baseState "att@store.com" ⟨none, none, none, none, none⟩ =
      (errResp 403 "Please login as store owner to add store attendant", baseState) :=
  ⟨by decide, by decide,
   (owner_only_endpoints_forbid_non_admin baseState "att@store.com" attUser
     (by decide) (by decide)).1 ⟨none, none, none, none⟩,
   (owner_only_endpoints_forbid_non_admin baseState "att@store.com" attUser
     (by decide) (by decide)).2.1 1 ⟨none, none, none, none⟩,
   (owner_only_endpoints_forbid_non_admin baseState "att@store.com" attUser
     (by decide) (by decide)).2.2.1 1,
   (owner_only_endpoints_forbid_non_admin baseState "att@store.com" attUser
     (by decide) (by decide)).2.2.2.1 ⟨none, none⟩,
   (owner_only_endpoints_forbid_non_admin baseState "att@store.com" attUser
     (by decide) (by decide)).2.2.2.2.1 1 ⟨none, none⟩,
   (owner_only_endpoints_forbid_non_admin baseState "att@store.com" attUser
     (by decide) (by decide)).2.2.2.2.2 ⟨none, none, none, none, none⟩⟩

/-- C4: the non-negative-stock invariant is broken by the code.  A sale of
3 units against the Chips product, whose stored quantity is 1, is accepted
with 201 and the stored quantity becomes -2, which is negative. -/
theorem sale_post_drives_quantity_negative :
    (sale_post baseState "att@store.com" ⟨some 2, some 3⟩).1.status = 201 ∧
    get_product_by_id (sale_post baseState "att@store.com" ⟨some 2, some 3⟩).2 2 =
      some ⟨2, "Chips", 3, -2, none⟩ ∧
    ((-2 : Int) < 0) := by decide

/-- C5 counterexample: the claimed inversion of the admin check on category
deletion is false of the code: no call with an authenticated non-owner
escapes the 403 rejection, so the first half of the inversion cannot hold. -/
theorem category_delete_check_not_inverted : ¬ category_delete_admin_inverted := by
  intro hinv
  obtain ⟨⟨s, uid, u, cid, hu, hna, hne⟩, _⟩ := hinv
  apply hne
  rw [category_delete_by_nonadmin s uid u cid hu hna]
  rfl

/-- C5 amended: the admin check on category deletion in src/api/views.py is
the stated owner-only rule, not its inversion: a non-owner always gets 403
with no change, and the owner gets 404 on an absent id and otherwise
deletes the category. -/
theorem category_delete_owner_only
    (s : DBState) (uid : String) (u : User) (cid : Nat)
    (hu : get_user s uid = some u) :
    (u.is_admin = false →
       category_delete s uid cid = (errResp 403 "Please login as a store owner", s)) ∧
    (u.is_admin = true → get_category_by_id s cid = none →
       category_delete s uid cid =
         (errResp 404 "Category you are trying to delete does not exist", s)) ∧
    (∀ c : Category, u.is_admin = true → get_category_by_id s cid = some c →
       (category_delete s uid cid).1 =
         msgResp 200 "Category has been deleted successfully" ∧
       get_category_by_id (category_delete s uid cid).2 cid = none) := by
  refine ⟨fun hna => category_delete_by_nonadmin s uid u cid hu hna,
    fun hadm hnone => ?_, fun c hadm hsome => ?_⟩
  · unfold category_delete
    rw [hu]
    simp [hadm, hnone]
  · have key : category_delete s uid cid =
        (msgResp 200 "Category has been deleted successfully", delete_category s cid) := by
      unfold category_delete
      rw [hu]
      simp [hadm, hsome]
    rw [key]
    exact ⟨rfl, find?_filter_out_categories s.categories cid⟩

/-- Witness for the amended C5: the owner deletes category 1, which then no
longer resolves by id. -/
theorem category_delete_owner_only_witness :
    get_user baseState "owner@store.com" = some ownerUser ∧
    ownerUser.is_admin = true ∧
    get_category_by_id baseState 1 = some bevCategory ∧
    ((category_delete baseState "owner@store.com" 1).1 =
       msgResp 200 "Category has been deleted successfully" ∧
     get_category_by_id (category_delete baseState "owner@store.com" 1).2 1 = none) :=
  ⟨by decide, by decide, by decide,
   (category_delete_owner_only baseState "owner@store.com" ownerUser 1 (by decide)).2.2
     bevCategory rfl (by decide)⟩

/-- C6: on GET for a single sale record, an absent id answers 404, the
owner gets the record with 200, the attendant who made the sale gets the
record with 200, and any other attendant gets 403. -/
theorem sale_get_single_access_control
    (s : DBState) (uid : String) (u : User) (sid : Nat)
    (hu : get_user s uid = some u) :
    (get_single_sale s sid = none → (sale_get_single s uid sid).status = 404) ∧
    (∀ sr : Sale, get_single_sale s sid = some sr → u.is_admin = true →
       sale_get_single s uid sid =
         ⟨200, some "Sale record returned successfully", none, none, none, none, some sr⟩) ∧
    (∀ sr : Sale, get_single_sale s sid = some sr → u.is_admin = false →
       sr.attendant_id = u.id →
       sale_get_single s uid sid =
         ⟨200, some "Sale record returned successfully", none, none, none, none, some sr⟩) ∧
    (∀ sr : Sale, get_single_sale s sid = some sr → u.is_admin = false →
       sr.attendant_id ≠ u.id → (sale_get_single s uid sid).status = 403) := by
  refine ⟨fun hnone => ?_, fun sr hsr hadm => ?_, fun sr hsr hna hown => ?_,
    fun sr hsr hna hother => ?_⟩
  · unfold sale_get_single
    rw [hu]
    simp [hnone]
    rfl
  · unfold sale_get_single
    rw [hu]
    simp [hsr, hadm]
  · unfold sale_get_single
    rw [hu]
    simp [hsr, hna, hown]
  · unfold sale_get_single
    rw [hu]
    simp [hsr, hna, hother]
    rfl

/-- Witness for C6: attendant 3 asking for sale 1, made by attendant 2,
gets 403; attendant 2 asking for the same sale gets it with 200. -/
theorem sale_get_single_access_control_witness :
    get_user baseState "att2@store.com" = some attUser2 ∧
    get_single_sale baseState 1 = some sale1 ∧
    sale1.attendant_id ≠ attUser2.id ∧
    (sale_get_single baseState "att2@store.com" 1).status = 403 ∧
    get_user baseState "att@store.com" = some attUser ∧
    sale1.attendant_id = attUser.id ∧
    sale_get_single baseState "att@store.com" 1 =
      ⟨200, some "Sale record returned successfully", none, none, none, none, some sale1⟩ :=
  ⟨by decide, by decide, by decide,
   (sale_get_single_access_control baseState "att2@store.com" attUser2 1 (by decide)).2.2.2
     sale1 (by decide) rfl (by decide),
   by decide, by decide,
   (sale_get_single_access_control baseState "att@store.com" attUser 1 (by decide)).2.2.1
     sale1 (by decide) rfl (by decide)⟩

/-- C7: a login request with a registered email and the correct password
answers 200 with a token bound to that email and the role-specific success
message (owner wording when is_admin, attendant wording otherwise), without
touching the state. -/
theorem login_success_token_and_message
    (s : DBState) (e pw : String) (u : User)
    (hu : get_user s e = some u)
    (hpw : check_password_hash u.password pw = true) :
    (login_post s ⟨some e, some pw⟩).1 =
      tokenResp (if u.is_admin then "Store owner logged in successfully"
                 else "Store attendant logged in successfully")
        (create_access_token e) ∧
    (login_post s ⟨some e, some pw⟩).1.status = 200 ∧
    access_token_identity (create_access_token e) = e ∧
    (login_post s ⟨some e, some pw⟩).2 = s := by
  by_cases hadm : u.is_admin = true
  · have key : login_post s ⟨some e, some pw⟩ =
        (tokenResp "Store owner logged in successfully" (create_access_token e), s) := by
      unfold login_post
      simp [validate_login_data, hu, hpw, hadm]
    rw [key]
    simp [hadm, token_identity_of_email, tokenResp]
  · rw [Bool.not_eq_true] at hadm
    have key : login_post s ⟨some e, some pw⟩ =
        (tokenResp "Store attendant logged in successfully" (create_access_token e), s) := by
      unfold login_post
      simp [validate_login_data, hu, hpw, hadm]
    rw [key]
    simp [hadm, token_identity_of_email, tokenResp]

/-- Witness for C7: the owner logs in with the stored password and receives
the owner message plus a token bound to the email. -/
theorem login_success_token_and_message_witness :
    get_user baseState "owner@store.com" = some ownerUser ∧
    check_password_hash ownerUser.password "ownerpw" = true ∧
    ((login_post baseState ⟨some "owner@store.com", some "ownerpw"⟩).1 =
       tokenResp (if ownerUser.is_admin then "Store owner logged in successfully"
                  else "Store attendant logged in successfully")
         (create_access_token "owner@store.com") ∧
     (login_post baseState ⟨some "owner@store.com", some "ownerpw"⟩).1.status = 200 ∧
     access_token_identity (create_access_token "owner@store.com") = "owner@store.com" ∧
     (login_post baseState ⟨some "owner@store.com", some "ownerpw"⟩).2 = baseState) :=
  ⟨by decide, by decide,
   login_success_token_and_message baseState "owner@store.com" "ownerpw" ownerUser
     (by decide) (by decide)⟩

/-- C8: a login request whose email is not registered answers 401 with no
token in the body and the state unchanged. -/
theorem login_unregistered_email_401
    (s : DBState) (e pw : String) (hmiss : get_user s e = none) :
    login_post s ⟨some e, some pw⟩ = (errResp 401 "Please register to login", s) := by
  unfold login_post
  simp [validate_login_data, hmiss]

/-- Witness for C8: no user has the email ghost@store.com; logging in with
it yields 401 and nothing else. -/
theorem login_unregistered_email_401_witness :
    get_user baseState "ghost@store.com" = none ∧
    login_post baseState ⟨some "ghost@store.com", some "whatever"⟩ =
      (errResp 401 "Please register to login", baseState) :=
  ⟨by decide,
   login_unregistered_email_401 baseState "ghost@store.com" "whatever" (by decide)⟩

/-- C9: PUT on a category by the owner: an absent id answers 404 unchanged;
with an existing id but an absent name it answers 400 unchanged; otherwise
it stores name and description on the category and returns the updated
record. -/
theorem category_put_behavior
    (s : DBState) (uid : String) (u : User) (cid : Nat) (p : CategoryPayload)
    (hu : get_user s uid = some u) (hadm : u.is_admin = true) :
    (get_category_by_id s cid = none →
       category_put s uid cid p =
         (errResp 404 "The category you are trying to modify does not exist", s)) ∧
    (∀ c : Category, get_category_by_id s cid = some c → p.name = none →
       category_put s uid cid p = (errResp 400 "The category name is required", s)) ∧
    (∀ (c : Category) (n : String), get_category_by_id s cid = some c →
       p.name = some n → n ≠ "" →
       (category_put s uid cid p).1 =
         ⟨200, some "Category updated successfully", none, none, none,
          some ⟨c.id, n, p.description⟩, none⟩ ∧
       get_category_by_id (category_put s uid cid p).2 cid =
         some ⟨c.id, n, p.description⟩) := by
  refine ⟨fun hnone => ?_, fun c hc hname => ?_, fun c n hc hname hne => ?_⟩
  · unfold category_put
    rw [hu]
    simp [hadm, hnone]
  · unfold category_put
    rw [hu]
    simp [hadm, hc, hname]
  · have hbeq : (n == "") = false := by simp [hne]
    have hupd : get_category_by_id (update_category s n p.description cid) cid =
        some ⟨c.id, n, p.description⟩ :=
      find?_map_update_categories s.categories cid n p.description c hc
    constructor
    · unfold category_put
      rw [hu]
      simp [hadm, hc, hname, hbeq, hupd]
    · unfold category_put
      rw [hu]
      simp [hadm, hc, hname, hbeq, hupd]

/-- Witness for C9: the owner renames category 1 to Drinks; the stored and
returned record carry the new name and description. -/
theorem category_put_behavior_witness :
    get_user baseState "owner@store.com" = some ownerUser ∧
    ownerUser.is_admin = true ∧
    get_category_by_id baseState 1 = some bevCategory ∧
    ("Drinks" : String) ≠ "" ∧
    ((category_put baseState "owner@store.com" 1 ⟨some "Drinks", some "cold ones"⟩).1 =
       ⟨200, some "Category updated successfully", none, none, none,
        some ⟨bevCategory.id, "Drinks", some "cold ones"⟩, none⟩ ∧
     get_category_by_id
         (category_put baseState "owner@store.com" 1 ⟨some "Drinks", some "cold ones"⟩).2 1 =
       some ⟨bevCategory.id, "Drinks", some "cold ones"⟩) :=
  ⟨by decide, by decide, by decide, by decide,
   (category_put_behavior baseState "owner@store.com" ownerUser 1
     ⟨some "Drinks", some "cold ones"⟩ (by decide) rfl).2.2 bevCategory "Drinks"
     (by decide) rfl (by decide)⟩

/-- C10: category creation never checks for a duplicate name: with a valid
payload whose name is already stored the owner still gets 201 and a new
category row is appended, while product creation under a duplicate name
answers 400 Conflict with no change. -/
theorem category_post_allows_duplicate_names
    (s : DBState) (uid : String) (u : User) (p : CategoryPayload)
    (n d : String) (c0 : Category)
    (hu : get_user s uid = some u) (hadm : u.is_admin = true)
    (hn : p.name = some n) (hd : p.description = some d)
    (hdup : get_category_by_name s n = some c0) :
    (category_post s uid p).1.status = 201 ∧
    (category_post s uid p).2.categories =
      s.categories ++ [⟨s.nextCategoryId, n, some d⟩] ∧
    (category_post s uid p).2.categories.length = s.categories.length + 1 ∧
    (∀ (pp : ProductPayload) (pn : String) (pc pq : Int) (pr : Product),
       pp.name = some pn → pp.unit_cost = some pc → pp.quantity = some pq →
       get_product_by_name s pn = some pr →
       product_post s uid pp =
         (errResp 400 "Product with this name already exists", s)) := by
  have key : category_post s uid p =
      (⟨201, some "Successfully created product category", none, none, none,
        get_category_by_name (add_category s n (some d)) n, none⟩,
       add_category s n (some d)) := by
    unfold category_post
    rw [hu]
    simp [hadm, validate_category, hn, hd]
  refine ⟨?_, ?_, ?_, fun pp pn pc pq pr h1 h2 h3 h4 =>
    product_post_duplicate_name s uid u pp pn pc pq pr hu hadm h1 h2 h3 h4⟩
  · rw [key]
  · rw [key]
    rfl
  · rw [key]
    simp [add_category]

/-- Witness for C10: Beverages already exists as category 1, yet the owner
creating Beverages again gets 201 and a second row; creating the product
Cola again gets 400 and no change. -/
theorem category_post_allows_duplicate_names_witness :
    get_user baseState "owner@store.com" = some ownerUser ∧
    get_category_by_name baseState "Beverages" = some bevCategory ∧
    (category_post baseState "owner@store.com" ⟨some "Beverages", some "again"⟩).1.status = 201 ∧
    (category_post baseState "owner@store.com" ⟨some "Beverages", some "again"⟩).2.categories =
      baseState.categories ++ [⟨baseState.nextCategoryId, "Beverages", some "again"⟩] ∧
    (category_post baseState "owner@store.com" ⟨some "Beverages", some "again"⟩).2.categories.length =
      baseState.categories.length + 1 ∧
    product_post baseState "owner@store.com" ⟨some "Cola", some 9, some 9, none⟩ =
      (errResp 400 "Product with this name already exists", baseState) :=
  ⟨by decide, by decide,
   (category_post_allows_duplicate_names baseState "owner@store.com" ownerUser
     ⟨some "Beverages", some "again"⟩ "Beverages" "again" bevCategory
     (by decide) rfl rfl rfl (by decide)).1,
   (category_post_allows_duplicate_names baseState "owner@store.com" ownerUser
     ⟨some "Beverages", some "again"⟩ "Beverages" "again" bevCategory
     (by decide) rfl rfl rfl (by decide)).2.1,
   (category_post_allows_duplicate_names baseState "owner@store.com" ownerUser
     ⟨some "Beverages", some "again"⟩ "Beverages" "again" bevCategory
     (by decide) rfl rfl rfl (by decide)).2.2.1,
   (category_post_allows_duplicate_names baseState "owner@store.com" ownerUser
     ⟨some "Beverages", some "again"⟩ "Beverages" "again" bevCategory
     (by decide) rfl rfl rfl (by decide)).2.2.2
     ⟨some "Cola", some 9, some 9, none⟩ "Cola" 9 9 colaProduct rfl rfl rfl (by decide)⟩

end StoreApi
